import Mathlib

/-!
Verification of the todoist34 task-management API against its
natural-language specification.

The embedding models the backend as pure functions over an explicit
database state.  Timestamps are natural numbers; the wall clock, and the
random bcrypt salt, are passed as explicit arguments.  HTTP failures are
`Except` errors carrying status code and detail string, mirroring
FastAPI's `HTTPException(status_code, detail)`.
-/

namespace Todoist

/-- An HTTP error as raised by `HTTPException(status_code=..., detail=...)`. -/
structure HTTPErr where
  status : Nat
  detail : String
deriving Repr, DecidableEq

/-- Row of the `users` table (src/backend/models/user.py). -/
structure User where
  id : Nat
  username : String
  email : String
  hashed_password : String
  created_at : Nat
deriving Repr, DecidableEq

/-- Row of the `tasks` table (src/backend/models/task.py). -/
structure Task where
  id : Nat
  title : String
  description : Option String
  is_completed : Bool
  created_at : Nat
  updated_at : Nat
  user_id : Nat
deriving Repr, DecidableEq

/-- The relational store: `users` and `tasks` tables plus the
autoincrement counters of their integer primary keys. -/
structure DB where
  users : List User
  tasks : List Task
  nextUserId : Nat
  nextTaskId : Nat
deriving Repr, DecidableEq

/-- Request body of POST /api/auth/register (schemas/user.py, UserCreate). -/
structure UserCreate where
  username : String
  email : String
  password : String
deriving Repr, DecidableEq

/-- Request body of POST /api/auth/login (schemas/user.py, UserLogin). -/
structure UserLogin where
  username : String
  password : String
deriving Repr, DecidableEq

/-- Request body of POST /api/tasks (schemas/task.py, TaskCreate). -/
structure TaskCreate where
  title : String
  description : Option String
deriving Repr, DecidableEq

/-- Request body of PUT /api/tasks/id (schemas/task.py, TaskUpdate).
Each field is `some v` exactly when the client supplied it, matching
pydantic's `model_dump(exclude_unset=True)`; `description` may be
supplied as null, hence the nested option. -/
structure TaskUpdate where
  title : Option String
  description : Option (Option String)
  is_completed : Option Bool
deriving Repr, DecidableEq

/-! ## Password hasher

Modelled from the spec: the passlib `CryptContext(schemes=["bcrypt"])`
used by `hash_password` / `verify_password` in
src/backend/services/security.py is an external library, not part of
src/.  Per spec section 4.1 it is a salted one-way hash whose `verify`
recomputes and compares, and whose failure mode on a malformed digest is
a negative verification result.  The digest here is
`"$2b$" ++ salt in unary ++ "$" ++ keyed transform of the plaintext`. -/

/-- Modelled from the spec: the keyed per-character transform standing in
for the bcrypt key schedule (content of the digest body). -/
def mixChar (salt : Nat) (c : Char) : Char :=
  Char.ofNat ((c.toNat + salt) % 95 + 32)

/-- Modelled from the spec: digest body derived from plaintext and salt. -/
def bcryptBody (salt : Nat) (p : String) : List Char :=
  p.data.map (mixChar salt)

/-- Modelled from the spec: `hash_password` (security.py line 30) produces
a salted digest; the salt is drawn by the library, so it is an explicit
argument here. -/
def hash_password (salt : Nat) (p : String) : String :=
  String.mk ('$' :: '2' :: 'b' :: '$' :: (List.replicate salt 's' ++ '$' :: bcryptBody salt p))

/-- Modelled from the spec: recover salt and body from a digest; `none`
on a malformed digest. -/
def parseDigest (d : String) : Option (Nat × List Char) :=
  match d.data with
  | '$' :: '2' :: 'b' :: '$' :: rest =>
    match rest.dropWhile (fun c => c == 's') with
    | '$' :: body => some ((rest.takeWhile (fun c => c == 's')).length, body)
    | _ => none
  | _ => none

/-- Modelled from the spec: `verify_password` (security.py line 43)
recomputes the digest body from the plaintext and the digest's salt and
compares; malformed digests verify negatively. -/
def verify_password (p d : String) : Bool :=
  match parseDigest d with
  | none => false
  | some (salt, body) => body == bcryptBody salt p

/-! ## Token issuer / validator

Modelled from the spec: the `jose.jwt` encode/decode used in
security.py is an external library, not part of src/.  Per spec
section 4.2 a token is a signed, time-bounded credential; decoding
checks the signature against the symmetric secret and the expiration
against the current time. -/

/-- Claims carried by a token: the optional subject and the expiration. -/
structure JWTClaims where
  sub : Option String
  exp : Nat
deriving Repr, DecidableEq

/-- Modelled from the spec: a bearer token is either a credential signed
with some key, or a malformed string. -/
inductive JWT where
  | signed (claims : JWTClaims) (key : String) : JWT
  | malformed : JWT
deriving Repr, DecidableEq

/-- Failure modes of token validation (jose raises
`ExpiredSignatureError <: JWTError` on lapsed expiration and `JWTError`
on bad signature or structure). -/
inductive JWTError where
  | invalid : JWTError
  | expired : JWTError
deriving Repr, DecidableEq

/-- The configured signing secret (security.py line 22, default value). -/
def SECRET_KEY : String := "your-secret-key"

/-- Token time-to-live (security.py line 24 and auth.py line 16, default 30). -/
def ACCESS_TOKEN_EXPIRE_MINUTES : Nat := 30

/-- Modelled from the spec: `jwt.decode(token, SECRET_KEY, algorithms)`
verifies signature and expiration. -/
def jwtDecode (token : JWT) (key : String) (now : Nat) : Except JWTError JWTClaims :=
  match token with
  | .malformed => .error .invalid
  | .signed c k =>
    if k ≠ key then .error .invalid
    else if c.exp ≤ now then .error .expired
    else .ok c

/-- `create_access_token` (security.py line 57): copies the data, adds
`exp = now + expires_delta`, signs with `SECRET_KEY`.  The `data` dict at
the call sites is `{"sub": username}`, modelled as the optional subject. -/
def create_access_token (sub : Option String) (now expires_delta : Nat) : JWT :=
  .signed ⟨sub, now + expires_delta⟩ SECRET_KEY

/-- The uniform 401 raised by `get_current_user` (security.py line 98). -/
def credentialsException : HTTPErr :=
  ⟨401, "Could not validate credentials"⟩

/-- `get_current_user` (security.py line 81): decode the token, require a
subject claim, and look the subject up in the users table; every failure
is the same `credentialsException`. -/
def get_current_user (db : DB) (token : JWT) (now : Nat) : Except HTTPErr User :=
  match jwtDecode token SECRET_KEY now with
  | .error _ => .error credentialsException
  | .ok payload =>
    match payload.sub with
    | none => .error credentialsException
    | some username =>
      match db.users.find? (fun u => u.username == username) with
      | none => .error credentialsException
      | some user => .ok user

/-! ## Auth routes (src/backend/routes/auth.py) -/

/-- Response body of POST /api/auth/login (schemas/user.py, Token). -/
structure TokenResponse where
  access_token : JWT
  token_type : String
deriving Repr, DecidableEq

/-- `register_user` (auth.py line 22): reject a taken username, then a
taken email, each with 400; otherwise insert one new user whose stored
password is the hash of the plaintext.  Returns the response together
with the resulting store. -/
def register_user (db : DB) (user : UserCreate) (salt now : Nat) :
    Except HTTPErr User × DB :=
  match db.users.find? (fun u => u.username == user.username) with
  | some _ => (.error ⟨400, "Username already registered"⟩, db)
  | none =>
    match db.users.find? (fun u => u.email == user.email) with
    | some _ => (.error ⟨400, "Email already registered"⟩, db)
    | none =>
      let new_user : User :=
        { id := db.nextUserId
          username := user.username
          email := user.email
          hashed_password := hash_password salt user.password
          created_at := now }
      (.ok new_user,
       { db with users := db.users ++ [new_user], nextUserId := db.nextUserId + 1 })

/-- `login_user` (auth.py line 70): look the username up; if absent, or
present with a password failing verification, raise the one 401; else
issue a bearer token whose subject is the stored username. -/
def login_user (db : DB) (user : UserLogin) (now : Nat) :
    Except HTTPErr TokenResponse :=
  match db.users.find? (fun u => u.username == user.username) with
  | none =>
    .error ⟨401, "Incorrect username or password"⟩
  | some db_user =>
    if verify_password user.password db_user.hashed_password then
      .ok ⟨create_access_token (some db_user.username) now ACCESS_TOKEN_EXPIRE_MINUTES,
           "bearer"⟩
    else
      .error ⟨401, "Incorrect username or password"⟩

/-- Serialization through `response_model=UserResponse`
(schemas/user.py line 45): the response carries exactly id, username,
email and created_at, rendered as JSON fields. -/
def serializeUser (u : User) : List (String × String) :=
  [("id", toString u.id), ("username", u.username),
   ("email", u.email), ("created_at", toString u.created_at)]

/-- GET /api/auth/me (auth.py line 103): returns the resolved current
user, serialized through UserResponse. -/
def get_current_user_info (db : DB) (token : JWT) (now : Nat) :
    Except HTTPErr (List (String × String)) :=
  (get_current_user db token now).map serializeUser

/-! ## Task routes (src/backend/routes/tasks.py) -/

/-- The 404 raised by the task routes when the ownership-scoped query
finds nothing. -/
def taskNotFound : HTTPErr := ⟨404, "Task not found"⟩

/-- The ownership-scoped query shared by get/update/delete
(tasks.py lines 87, 124, 166): first row with the given id owned by the
given user. -/
def findOwnedTask (db : DB) (cu : User) (task_id : Nat) : Option Task :=
  db.tasks.find? (fun t => t.id == task_id && t.user_id == cu.id)

/-- `create_task` (tasks.py line 19): insert a task owned by the caller,
not completed, with both timestamps set to now. -/
def create_task (db : DB) (cu : User) (task : TaskCreate) (now : Nat) :
    Except HTTPErr Task × DB :=
  let new_task : Task :=
    { id := db.nextTaskId
      title := task.title
      description := task.description
      is_completed := false
      created_at := now
      updated_at := now
      user_id := cu.id }
  (.ok new_task,
   { db with tasks := db.tasks ++ [new_task], nextTaskId := db.nextTaskId + 1 })

/-- `get_all_tasks` (tasks.py line 49): every task owned by the caller. -/
def get_all_tasks (db : DB) (cu : User) : List Task :=
  db.tasks.filter (fun t => t.user_id == cu.id)

/-- `get_task_by_id` (tasks.py line 68): the ownership-scoped lookup, 404
when it finds nothing. -/
def get_task_by_id (db : DB) (cu : User) (task_id : Nat) : Except HTTPErr Task :=
  match findOwnedTask db cu task_id with
  | none => .error taskNotFound
  | some t => .ok t

/-- The `setattr` loop of `update_task` (tasks.py line 137): overwrite
exactly the fields present in the patch. -/
def applyTaskUpdate (patch : TaskUpdate) (t : Task) : Task :=
  let t1 := match patch.title with
    | some v => { t with title := v }
    | none => t
  let t2 := match patch.description with
    | some v => { t1 with description := v }
    | none => t1
  match patch.is_completed with
  | some v => { t2 with is_completed := v }
  | none => t2

/-- `update_task` (tasks.py line 102): ownership-scoped lookup, 404 when
absent; otherwise apply the supplied fields and commit.  At flush,
SQLAlchemy compares each set attribute against its committed value and
emits no UPDATE when there is no net change — so when the applied patch
leaves the row equal to what was stored (empty patch, or values equal to
the current ones), the column's `onupdate=datetime.utcnow` does not fire
and `updated_at` stands; only a net change refreshes it. -/
def update_task (db : DB) (cu : User) (task_id : Nat) (patch : TaskUpdate) (now : Nat) :
    Except HTTPErr Task × DB :=
  match findOwnedTask db cu task_id with
  | none => (.error taskNotFound, db)
  | some t =>
    let t1 := applyTaskUpdate patch t
    if t1 = t then
      (.ok t, db)
    else
      let t' := { t1 with updated_at := now }
      (.ok t', { db with tasks := db.tasks.map (fun x => if x.id == t.id then t' else x) })

/-- `delete_task` (tasks.py line 147): ownership-scoped lookup, 404 when
absent; otherwise remove the row. -/
def delete_task (db : DB) (cu : User) (task_id : Nat) :
    Except HTTPErr Unit × DB :=
  match findOwnedTask db cu task_id with
  | none => (.error taskNotFound, db)
  | some t =>
    (.ok (), { db with tasks := db.tasks.filter (fun x => x.id != t.id) })

/-- Modelled from the spec: no route in src/ deletes a user; user
deletion happens through the ORM relationship
`cascade="all, delete-orphan"` (models/user.py line 32), which removes
the user row and every task row owned by it in one transaction. -/
def delete_user (db : DB) (uid : Nat) : DB :=
  { db with
    users := db.users.filter (fun u => u.id != uid)
    tasks := db.tasks.filter (fun t => t.user_id != uid) }

/-! ## Concrete fixtures used by witnesses -/

/-- A user provisioned as in the spec's end-to-end scenario. -/
def aliceUser : User := ⟨1, "alice", "a@x.com", hash_password 2 "secret1", 0⟩

/-- A second user, owner of the second fixture task. -/
def bobUser : User := ⟨2, "bob", "b@y.com", hash_password 3 "hunter2", 0⟩

/-- The fixture task owned by alice. -/
def aliceTask : Task := ⟨1, "Buy milk", none, false, 0, 0, 1⟩

/-- The fixture task owned by bob. -/
def bobTask : Task := ⟨2, "Walk dog", some "daily", false, 0, 0, 2⟩

/-- A fixture task of alice that is already completed. -/
def doneTask : Task := ⟨3, "Pay rent", none, true, 0, 0, 1⟩

/-- A store holding only the already-completed task. -/
def dbDone : DB :=
  { users := [aliceUser]
    tasks := [doneTask]
    nextUserId := 2
    nextTaskId := 4 }

/-- A concrete store with two users and one task each. -/
def dbW : DB :=
  { users := [aliceUser, bobUser]
    tasks := [aliceTask, bobTask]
    nextUserId := 3
    nextTaskId := 3 }

/-- An empty store. -/
def dbEmpty : DB := ⟨[], [], 1, 1⟩

/-- The token response a successful login of alice at time 0 produces. -/
def tokenW : TokenResponse :=
  ⟨create_access_token (some "alice") 0 ACCESS_TOKEN_EXPIRE_MINUTES, "bearer"⟩

/-! ## Helper lemmas -/

/-- No row of the ownership-scoped query: no task in the store has the
given id and owner. -/
def noOwnedTask (db : DB) (cu : User) (task_id : Nat) : Prop :=
  ∀ t ∈ db.tasks, ¬ (t.id = task_id ∧ t.user_id = cu.id)

instance (db : DB) (cu : User) (task_id : Nat) : Decidable (noOwnedTask db cu task_id) := by
  unfold noOwnedTask; infer_instance

theorem findOwnedTask_eq_none_iff (db : DB) (cu : User) (tid : Nat) :
    findOwnedTask db cu tid = none ↔ noOwnedTask db cu tid := by
  simp [findOwnedTask, noOwnedTask, List.find?_eq_none, not_and]

theorem dropWhile_replicate_s (n : Nat) (l : List Char) :
    List.dropWhile (fun c => c == 's') (List.replicate n 's' ++ '$' :: l) = '$' :: l := by
  induction n with
  | zero => simp [List.dropWhile]
  | succ n ih => simp [List.replicate_succ, List.dropWhile, ih]

theorem takeWhile_replicate_s (n : Nat) (l : List Char) :
    List.takeWhile (fun c => c == 's') (List.replicate n 's' ++ '$' :: l) =
      List.replicate n 's' := by
  induction n with
  | zero => simp [List.takeWhile]
  | succ n ih => simp [List.replicate_succ, List.takeWhile, ih]

theorem parseDigest_hash (salt : Nat) (p : String) :
    parseDigest (hash_password salt p) = some (salt, bcryptBody salt p) := by
  simp [parseDigest, hash_password, dropWhile_replicate_s, takeWhile_replicate_s]

theorem verify_password_hash (salt : Nat) (p : String) :
    verify_password p (hash_password salt p) = true := by
  simp [verify_password, parseDigest_hash]

theorem hash_password_length (salt : Nat) (p : String) :
    (hash_password salt p).length = 5 + salt + p.length := by
  obtain ⟨l⟩ := p
  simp [hash_password, bcryptBody, String.length_mk]
  omega

theorem hash_password_ne (salt : Nat) (p : String) : hash_password salt p ≠ p := by
  intro h
  have hlen := congrArg String.length h
  rw [hash_password_length] at hlen
  omega

theorem parseDigest_some (e : String) (s : Nat) (body : List Char)
    (h : parseDigest e = some (s, body)) :
    e = String.mk ('$' :: '2' :: 'b' :: '$' :: (List.replicate s 's' ++ '$' :: body)) := by
  obtain ⟨data⟩ := e
  simp only [parseDigest] at h
  split at h
  · split at h
    · rename_i rest _ body0 heq2
      simp only [Option.some.injEq, Prod.mk.injEq] at h
      obtain ⟨hs, hbody⟩ := h
      have hsplit := List.takeWhile_append_dropWhile (p := fun c => c == 's') (l := rest)
      have htake : rest.takeWhile (fun c => c == 's') =
          List.replicate (rest.takeWhile (fun c => c == 's')).length 's' := by
        rw [List.eq_replicate_length]
        intro b hb
        have := List.mem_takeWhile_imp hb
        simpa using this
      have hrest : rest = List.replicate s 's' ++ '$' :: body := by
        rw [← hsplit, heq2, hbody, ← hs, ← htake]
      rw [hrest]
    · exact Option.noConfusion h
  · exact Option.noConfusion h

/-! ## Claims -/

/-- C1: for every authenticated user and task id, get, update and delete
fail with 404 "Task not found" exactly when no task with that id is owned
by that user (so a task owned by a different user is indistinguishable
from a nonexistent one); a failed update or delete mutates nothing, and
list returns only tasks owned by the caller. -/
theorem task_ops_isolation (db : DB) (cu : User) (tid : Nat)
    (patch : TaskUpdate) (now : Nat) :
    (get_task_by_id db cu tid = .error taskNotFound ↔ noOwnedTask db cu tid)
    ∧ ((update_task db cu tid patch now).1 = .error taskNotFound ↔ noOwnedTask db cu tid)
    ∧ ((delete_task db cu tid).1 = .error taskNotFound ↔ noOwnedTask db cu tid)
    ∧ (noOwnedTask db cu tid →
        (update_task db cu tid patch now).2 = db ∧ (delete_task db cu tid).2 = db)
    ∧ (∀ t ∈ get_all_tasks db cu, t.user_id = cu.id) := by
  have hlist : ∀ t ∈ get_all_tasks db cu, t.user_id = cu.id := by
    intro t ht
    have := (List.mem_filter.mp ht).2
    simpa using this
  have hiff := findOwnedTask_eq_none_iff db cu tid
  rcases hfo : findOwnedTask db cu tid with _ | t
  · have hno : noOwnedTask db cu tid := (findOwnedTask_eq_none_iff db cu tid).mp hfo
    refine ⟨?_, ?_, ?_, ?_, hlist⟩
    · simp [get_task_by_id, hfo, hno]
    · simp [update_task, hfo, hno]
    · simp [delete_task, hfo, hno]
    · intro _
      exact ⟨by simp [update_task, hfo], by simp [delete_task, hfo]⟩
  · have ht : ¬ noOwnedTask db cu tid := by
      intro hno
      have := (findOwnedTask_eq_none_iff db cu tid).mpr hno
      rw [hfo] at this
      exact Option.noConfusion this
    refine ⟨?_, ?_, ?_, fun hno => absurd hno ht, hlist⟩
    · simp [get_task_by_id, hfo, ht]
    · simp only [update_task, hfo]
      split <;> simp [ht]
    · simp [delete_task, hfo, ht]

/-- C1 witness: bob's lookup of alice's task is the 404, and bob's failed
delete leaves the store unchanged. -/
theorem task_ops_isolation_witness :
    get_task_by_id dbW bobUser 1 = .error taskNotFound
    ∧ (delete_task dbW bobUser 1).2 = dbW := by
  have h := task_ops_isolation dbW bobUser 1 ⟨none, none, some true⟩ 0
  exact ⟨h.1.mpr (by decide), (h.2.2.2.1 (by decide)).2⟩

/-- C2: a login whose username is unknown and a login whose password
fails verification are rejected with the same 401 error value
"Incorrect username or password", so the two failures are
indistinguishable to the caller. -/
theorem login_uniform_error (db : DB) (user : UserLogin) (now : Nat) :
    (db.users.find? (fun u => u.username == user.username) = none →
      login_user db user now = .error ⟨401, "Incorrect username or password"⟩)
    ∧ (∀ du, db.users.find? (fun u => u.username == user.username) = some du →
        verify_password user.password du.hashed_password = false →
        login_user db user now = .error ⟨401, "Incorrect username or password"⟩) := by
  constructor
  · intro h
    simp [login_user, h]
  · intro du h hv
    simp [login_user, h, hv]

/-- C2 witness: an unknown username and a wrong password produce the
identical error value on the concrete store. -/
theorem login_uniform_error_witness :
    login_user dbW ⟨"carol", "secret1"⟩ 0 = .error ⟨401, "Incorrect username or password"⟩
    ∧ login_user dbW ⟨"alice", "wrongpw"⟩ 0 = .error ⟨401, "Incorrect username or password"⟩ := by
  refine ⟨(login_uniform_error dbW ⟨"carol", "secret1"⟩ 0).1 (by decide), ?_⟩
  exact (login_uniform_error dbW ⟨"alice", "wrongpw"⟩ 0).2 aliceUser (by decide) (by decide)

/-- C3: registration with a taken username or email fails with status 400
and leaves the store exactly as it was; with both free it succeeds and
appends exactly one new user row. -/
theorem register_atomicity (db : DB) (uc : UserCreate) (salt now : Nat) :
    ((∃ u ∈ db.users, u.username = uc.username ∨ u.email = uc.email) →
      (register_user db uc salt now).2 = db
      ∧ ∃ e, (register_user db uc salt now).1 = .error e ∧ e.status = 400)
    ∧ ((∀ u ∈ db.users, u.username ≠ uc.username ∧ u.email ≠ uc.email) →
      ∃ nu, (register_user db uc salt now).1 = .ok nu
        ∧ (register_user db uc salt now).2.users = db.users ++ [nu]) := by
  constructor
  · rintro ⟨u, hu, hcase⟩
    rcases hfu : db.users.find? (fun v => v.username == uc.username) with _ | du
    · have hne : ∀ v ∈ db.users, v.username ≠ uc.username := by
        intro v hv
        have := List.find?_eq_none.mp hfu v hv
        simpa using this
      have hemail : u.email = uc.email := by
        rcases hcase with h | h
        · exact absurd h (hne u hu)
        · exact h
      rcases hfe : db.users.find? (fun v => v.email == uc.email) with _ | de
      · exfalso
        have := List.find?_eq_none.mp hfe u hu
        simp [hemail] at this
      · refine ⟨by simp [register_user, hfu, hfe], ⟨400, "Email already registered"⟩, ?_, rfl⟩
        simp [register_user, hfu, hfe]
    · refine ⟨by simp [register_user, hfu], ⟨400, "Username already registered"⟩, ?_, rfl⟩
      simp [register_user, hfu]
  · intro h
    have hfu : db.users.find? (fun v => v.username == uc.username) = none := by
      rw [List.find?_eq_none]
      intro v hv
      simpa using (h v hv).1
    have hfe : db.users.find? (fun v => v.email == uc.email) = none := by
      rw [List.find?_eq_none]
      intro v hv
      simpa using (h v hv).2
    refine ⟨{ id := db.nextUserId, username := uc.username, email := uc.email,
              hashed_password := hash_password salt uc.password, created_at := now },
            ?_, ?_⟩
    · simp [register_user, hfu, hfe]
    · simp [register_user, hfu, hfe]

/-- C3 witness: registering alice's username again with a fresh email
fails and leaves the concrete store untouched. -/
theorem register_atomicity_witness :
    (register_user dbW ⟨"alice", "new@x.com", "password1"⟩ 1 5).2 = dbW := by
  exact ((register_atomicity dbW ⟨"alice", "new@x.com", "password1"⟩ 1 5).1
    ⟨aliceUser, by decide, Or.inl (by decide)⟩).1

/-- C4 counterexample: patching the already-completed task with only
is_completed = true at time 9 finds the task (whose updated_at 0 is
behind the clock), yet the result keeps updated_at = 0 and the store is
untouched: the applied values equal the stored ones, no UPDATE is
emitted, and onupdate never fires — refuting the unconditional
strictly-forward refresh. -/
theorem update_already_completed_no_refresh :
    findOwnedTask dbDone aliceUser 3 = some doneTask
    ∧ doneTask.is_completed = true
    ∧ doneTask.updated_at < 9
    ∧ (update_task dbDone aliceUser 3 ⟨none, none, some true⟩ 9).1 = .ok doneTask
    ∧ doneTask.updated_at = 0
    ∧ (update_task dbDone aliceUser 3 ⟨none, none, some true⟩ 9).2 = dbDone := by
  exact ⟨by decide, by decide, by decide, by rfl, by decide, by decide⟩

/-- C4 (amended): updating an owned, not-yet-completed task with a patch
containing only is_completed = true flips the flag, leaves title and
description unchanged, and moves updated_at strictly forward to the
current time (assuming the clock advanced since the previous write); on
an already-completed task the patch is a net no-op, so no UPDATE is
emitted and updated_at stands. -/
theorem update_patch_only_completed (db : DB) (cu : User) (tid now : Nat) (t : Task)
    (hfind : findOwnedTask db cu tid = some t)
    (hnc : t.is_completed = false) (hclock : t.updated_at < now) :
    ∃ t2, (update_task db cu tid ⟨none, none, some true⟩ now).1 = .ok t2
      ∧ t2.title = t.title ∧ t2.description = t.description
      ∧ t2.is_completed = true
      ∧ t.updated_at < t2.updated_at ∧ t2.updated_at = now := by
  obtain ⟨i, ti, de, co, ca, ua, ui⟩ := t
  simp only at hnc hclock
  subst hnc
  refine ⟨⟨i, ti, de, true, ca, now, ui⟩, ?_, rfl, rfl, rfl, hclock, rfl⟩
  simp [update_task, hfind, applyTaskUpdate]

/-- C4 witness: flipping the completion flag of alice's concrete pending
task at time 9 keeps its title and description and sets updated_at to 9. -/
theorem update_patch_only_completed_witness :
    ∃ t2, (update_task dbW aliceUser 1 ⟨none, none, some true⟩ 9).1 = .ok t2
      ∧ t2.title = aliceTask.title ∧ t2.description = aliceTask.description
      ∧ t2.is_completed = true
      ∧ aliceTask.updated_at < t2.updated_at ∧ t2.updated_at = 9 :=
  update_patch_only_completed dbW aliceUser 1 9 aliceTask (by decide) (by decide) (by decide)

/-- C5: registering with an unused username and email stores a password
hash that is never the plaintext and against which verification of the
plaintext succeeds. -/
theorem register_hash_roundtrip (db : DB) (uc : UserCreate) (salt now : Nat)
    (hfu : db.users.find? (fun u => u.username == uc.username) = none)
    (hfe : db.users.find? (fun u => u.email == uc.email) = none) :
    ∃ nu, (register_user db uc salt now).1 = .ok nu
      ∧ nu ∈ (register_user db uc salt now).2.users
      ∧ nu.hashed_password = hash_password salt uc.password
      ∧ nu.hashed_password ≠ uc.password
      ∧ verify_password uc.password nu.hashed_password = true := by
  refine ⟨{ id := db.nextUserId, username := uc.username, email := uc.email,
            hashed_password := hash_password salt uc.password, created_at := now },
          ?_, ?_, rfl, hash_password_ne salt uc.password,
          verify_password_hash salt uc.password⟩
  · simp [register_user, hfu, hfe]
  · simp [register_user, hfu, hfe]

/-- C5 witness: registering carol in the empty store gives a stored hash
distinct from the plaintext that the plaintext verifies against. -/
theorem register_hash_roundtrip_witness :
    ∃ nu, (register_user dbEmpty ⟨"carol", "c@x.com", "secret1"⟩ 2 0).1 = .ok nu
      ∧ nu ∈ (register_user dbEmpty ⟨"carol", "c@x.com", "secret1"⟩ 2 0).2.users
      ∧ nu.hashed_password = hash_password 2 "secret1"
      ∧ nu.hashed_password ≠ "secret1"
      ∧ verify_password "secret1" nu.hashed_password = true :=
  register_hash_roundtrip dbEmpty ⟨"carol", "c@x.com", "secret1"⟩ 2 0 rfl rfl

/-- C6: a successful login yields a token that decodes under the
configured secret to the logging-in username; decoding fails as invalid
on a wrong key or malformed token, as expired on a lapsed expiration, and
a token without a subject claim is rejected by get_current_user. -/
theorem login_token_roundtrip (db : DB) (user : UserLogin) (now : Nat)
    (tr : TokenResponse) (c : JWTClaims) (k : String) (e : Nat) :
    (login_user db user now = .ok tr →
      ∃ cl, jwtDecode tr.access_token SECRET_KEY now = .ok cl
        ∧ cl.sub = some user.username)
    ∧ (k ≠ SECRET_KEY → jwtDecode (.signed c k) SECRET_KEY now = .error .invalid)
    ∧ jwtDecode .malformed SECRET_KEY now = .error .invalid
    ∧ (c.exp ≤ now → jwtDecode (.signed c SECRET_KEY) SECRET_KEY now = .error .expired)
    ∧ (now < e →
        get_current_user db (.signed ⟨none, e⟩ SECRET_KEY) now = .error credentialsException) := by
  refine ⟨?_, ?_, ?_, ?_, ?_⟩
  · intro h
    rcases hf : db.users.find? (fun u => u.username == user.username) with _ | du
    · simp [login_user, hf] at h
    · simp only [login_user, hf] at h
      split_ifs at h with hv
      · have hdu : du.username = user.username := by
          have := List.find?_some hf
          simpa using this
        refine ⟨⟨some du.username, now + ACCESS_TOKEN_EXPIRE_MINUTES⟩, ?_, by simp [hdu]⟩
        rw [← Except.ok.inj h]
        simp [create_access_token, jwtDecode, ACCESS_TOKEN_EXPIRE_MINUTES]
  · intro hk
    simp [jwtDecode, hk]
  · simp [jwtDecode]
  · intro hc
    simp [jwtDecode, hc]
  · intro he
    simp [get_current_user, jwtDecode, Nat.not_le.mpr he]

/-- C6 witness: alice's concrete login token decodes back to alice, and
the failure modes fire on concrete bad tokens. -/
theorem login_token_roundtrip_witness :
    (∃ cl, jwtDecode tokenW.access_token SECRET_KEY 0 = .ok cl ∧ cl.sub = some "alice")
    ∧ jwtDecode (.signed ⟨some "x", 0⟩ "badkey") SECRET_KEY 0 = .error .invalid
    ∧ jwtDecode .malformed SECRET_KEY 0 = .error .invalid
    ∧ jwtDecode (.signed ⟨some "x", 0⟩ SECRET_KEY) SECRET_KEY 0 = .error .expired
    ∧ get_current_user dbW (.signed ⟨none, 10⟩ SECRET_KEY) 0 = .error credentialsException := by
  have h := login_token_roundtrip dbW ⟨"alice", "secret1"⟩ 0 tokenW ⟨some "x", 0⟩ "badkey" 10
  exact ⟨h.1 (by rfl), h.2.1 (by decide), h.2.2.1, h.2.2.2.1 (by decide),
         h.2.2.2.2 (by decide)⟩

/-- C7: the serialized user representation exposes exactly id, username,
email and created_at: it is unchanged by any change to the stored hash,
its field names carry no password field, the registration response is
identical for two registrations differing only in password, and every
successful /api/auth/me output carries exactly those four fields. -/
theorem user_response_hides_password (u : User) (hpw : String) (db : DB)
    (uc : UserCreate) (p1 p2 : String) (salt now : Nat) (token : JWT) :
    serializeUser { u with hashed_password := hpw } = serializeUser u
    ∧ (serializeUser u).map Prod.fst = ["id", "username", "email", "created_at"]
    ∧ (register_user db { uc with password := p1 } salt now).1.map serializeUser
        = (register_user db { uc with password := p2 } salt now).1.map serializeUser
    ∧ (∀ out, get_current_user_info db token now = .ok out →
        out.map Prod.fst = ["id", "username", "email", "created_at"]) := by
  obtain ⟨un, em, pw⟩ := uc
  refine ⟨rfl, rfl, ?_, ?_⟩
  · rcases hfu : db.users.find? (fun v => v.username == un) with _ | du
    · rcases hfe : db.users.find? (fun v => v.email == em) with _ | de
      · simp [register_user, hfu, hfe, serializeUser, Except.map]
      · simp [register_user, hfu, hfe]
    · simp [register_user, hfu]
  · intro out hout
    unfold get_current_user_info at hout
    rcases hg : get_current_user db token now with err | cu
    · rw [hg] at hout
      exact absurd hout (by simp [Except.map])
    · rw [hg] at hout
      have : serializeUser cu = out := by
        simpa [Except.map] using hout
      rw [← this]
      rfl

/-- C7 witness: rehashing alice changes nothing in her serialized form,
and two concrete registrations differing only in password produce the
identical response. -/
theorem user_response_hides_password_witness :
    serializeUser { aliceUser with hashed_password := "other" } = serializeUser aliceUser
    ∧ (register_user dbEmpty ⟨"dave", "d@x.com", "pw111111"⟩ 1 0).1.map serializeUser
        = (register_user dbEmpty ⟨"dave", "d@x.com", "pw222222"⟩ 1 0).1.map serializeUser := by
  have h := user_response_hides_password aliceUser "other" dbEmpty
    ⟨"dave", "d@x.com", "x"⟩ "pw111111" "pw222222" 1 0 .malformed
  exact ⟨h.1, h.2.2.1⟩

/-- C8: password verification is total: a malformed digest yields a
negative result rather than a crash, and verification succeeds only on
the genuine digest of the supplied plaintext. -/
theorem verify_malformed_negative (p d : String) (hmal : parseDigest d = none) :
    verify_password p d = false
    ∧ (∀ q e, verify_password q e = true → ∃ s, e = hash_password s q) := by
  constructor
  · simp [verify_password, hmal]
  · intro q e hv
    unfold verify_password at hv
    rcases hp : parseDigest e with _ | sb
    · rw [hp] at hv
      exact Bool.noConfusion hv
    · obtain ⟨s, body⟩ := sb
      rw [hp] at hv
      have hbody : body = bcryptBody s q := by
        simpa using hv
      refine ⟨s, ?_⟩
      have := parseDigest_some e s body hp
      rw [this, hbody]
      rfl

/-- C8 witness: a concrete malformed digest verifies negatively. -/
theorem verify_malformed_negative_witness :
    verify_password "secret1" "nothash" = false :=
  (verify_malformed_negative "secret1" "nothash" (by decide)).1

/-- C9: deleting a user removes exactly the tasks owned by that user:
no surviving task is owned by the deleted user, every task of any other
user survives unchanged, no task appears from nowhere, and the user row
itself is gone. -/
theorem delete_user_cascade (db : DB) (uid : Nat) :
    (∀ t ∈ (delete_user db uid).tasks, t.user_id ≠ uid)
    ∧ (∀ t ∈ db.tasks, t.user_id ≠ uid → t ∈ (delete_user db uid).tasks)
    ∧ (∀ t ∈ (delete_user db uid).tasks, t ∈ db.tasks)
    ∧ (∀ u ∈ (delete_user db uid).users, u.id ≠ uid) := by
  refine ⟨?_, ?_, ?_, ?_⟩ <;>
    simp [delete_user, List.mem_filter, bne_iff_ne] <;> tauto

/-- C9 witness: deleting alice keeps bob's concrete task and leaves no
task of alice behind. -/
theorem delete_user_cascade_witness :
    bobTask ∈ (delete_user dbW 1).tasks
    ∧ ∀ t ∈ (delete_user dbW 1).tasks, t.user_id ≠ 1 := by
  have h := delete_user_cascade dbW 1
  exact ⟨h.2.1 bobTask (by decide) (by decide), h.1⟩

/-- C10: a correctly signed, unexpired token whose subject names no
existing user is rejected by get_current_user with the very same 401
error as an invalid token, so no authenticated task operation can resolve
a deleted or never-registered subject. -/
theorem ghost_subject_unauthorized (db : DB) (uname : String) (e now : Nat)
    (hexp : now < e)
    (hnone : db.users.find? (fun u => u.username == uname) = none) :
    get_current_user db (.signed ⟨some uname, e⟩ SECRET_KEY) now = .error credentialsException
    ∧ get_current_user db .malformed now = .error credentialsException := by
  constructor
  · simp [get_current_user, jwtDecode, Nat.not_le.mpr hexp, hnone]
  · simp [get_current_user, jwtDecode]

/-- C10 witness: a valid token for the unregistered subject "ghost" is
rejected with the same 401 as a malformed token on the concrete store. -/
theorem ghost_subject_unauthorized_witness :
    get_current_user dbW (.signed ⟨some "ghost", 10⟩ SECRET_KEY) 0
      = .error credentialsException :=
  (ghost_subject_unauthorized dbW "ghost" 10 0 (by decide) (by decide)).1

end Todoist
